/-
  Verification of `scripts/python/contributor_check.py` (terrasnek).

  Shallow embedding: the script's pure logic is translated to Lean
  functions.  File contents are passed in as `String`s, the parsed
  coverage JSON as a small JSON value type, and the two effectful
  inputs of `main` (the PyPI HTTP fetch and the git working-tree
  query) as explicit parameters.  Python exceptions are modelled with
  `Except String`; Python floats are modelled as exact rationals `ℚ`
  (the script only divides by 10 or 100 and compares against fixed
  thresholds, so rounding never changes a comparison in the claims
  below); the interpolated text of printed messages is abstracted to
  constructors carrying the interpolated data, since Python's float
  `repr` is not modelled.
-/
import Mathlib

namespace ContributorCheck

/-! ### Python string primitives -/

/-- Python lexicographic `<` on strings (code-point order), on char lists. -/
def pyStrLtChars : List Char → List Char → Bool
  | [], [] => false
  | [], _ :: _ => true
  | _ :: _, [] => false
  | a :: as, b :: bs =>
      if a.val < b.val then true
      else if a.val = b.val then pyStrLtChars as bs
      else false

/-- Python `a < b` on strings. -/
def pyStrLt (a b : String) : Bool := pyStrLtChars a.data b.data

/-- Python `a >= b` on strings (`>=` is `not (<)` for the total string order). -/
def pyStrGe (a b : String) : Bool := ! pyStrLt a b

/-- Does `needle` occur at the start of `hay`? -/
def leadsWith : List Char → List Char → Bool
  | [], _ => true
  | _ :: _, [] => false
  | a :: as, b :: bs => a == b && leadsWith as bs

/-- Python `needle in hay` substring test. -/
def containsSub (needle : List Char) : List Char → Bool
  | [] => needle.isEmpty
  | c :: rest => leadsWith needle (c :: rest) || containsSub needle rest

/-- Python `str.find(c)` for a single-character needle: index of the first
occurrence, `-1` when absent. -/
def pyFindAux (c : Char) : List Char → Nat → Int
  | [], _ => -1
  | x :: xs, k => if x == c then Int.ofNat k else pyFindAux c xs (k + 1)

/-- Python `s.find(c)` (single character). -/
def pyFind (s : String) (c : Char) : Int := pyFindAux c s.data 0

/-- Python slice `l[start:stop]` index normalisation: negative indices count
from the end, then both ends are clamped to `[0, len]`. -/
def pySliceChars (l : List Char) (start stop : Int) : List Char :=
  let n : Int := Int.ofNat l.length
  let norm : Int → Nat := fun i =>
    if i < 0 then ((i + n).toNat) else min i.toNat l.length
  ((l.drop (norm start)).take (norm stop - norm start))

/-- Python `s[start:stop]`. -/
def pySliceStr (s : String) (start stop : Int) : String :=
  (pySliceChars s.data start stop).asString

/-- Python's notion of whitespace for `str.strip()`. -/
def pyIsSpace (c : Char) : Bool :=
  c == ' ' || c == '\t' || c == '\n' || c == '\r' || c == '\x0b' || c == '\x0c'

/-- Python `str.strip()`. -/
def pyStrip (s : String) : String :=
  ((s.data.dropWhile pyIsSpace).reverse.dropWhile pyIsSpace).reverse.asString

/-- If `needle` is a prefix of `hay`, the remainder of `hay` after it. -/
def stripLead : List Char → List Char → Option (List Char)
  | [], hay => some hay
  | _ :: _, [] => none
  | a :: as, b :: bs => if a == b then stripLead as bs else none

/-- Python `s.split(sep)` for a single-character separator: split on every
occurrence; splitting the empty string gives `[""]`. -/
def pySplitChar (c : Char) : List Char → List (List Char)
  | [] => [[]]
  | x :: xs =>
      if x == c then [] :: pySplitChar c xs
      else
        match pySplitChar c xs with
        | [] => [[x]]
        | g :: gs => (x :: g) :: gs

/-- Python `s.split(sep)` (single-character separator), on strings. -/
def pySplitStr (s : String) (c : Char) : List String :=
  (pySplitChar c s.data).map List.asString

/-- Worker for `pyReplace`: replace each non-overlapping occurrence of
`old` left to right, with enough fuel to consume the whole input (the
wrapper passes the input's length; `old` is nonempty at every use). -/
def pyReplaceFuel (old new : List Char) : Nat → List Char → List Char
  | _, [] => []
  | 0, s => s
  | fuel + 1, c :: rest =>
      match stripLead old (c :: rest) with
      | some remainder => new ++ pyReplaceFuel old new fuel remainder
      | none => c :: pyReplaceFuel old new fuel rest

/-- Python `s.replace(old, new)` for nonempty `old`. -/
def pyReplace (s old new : String) : String :=
  (pyReplaceFuel old.data new.data s.data.length s.data).asString

/-- Python `file.readlines()`: split the content into lines, each keeping its
trailing newline; a final segment without a newline is kept iff nonempty. -/
def pyReadlinesAux : List Char → List Char → List String
  | [], acc => if acc.isEmpty then [] else [acc.reverse.asString]
  | '\n' :: rest, acc => (acc.reverse ++ ['\n']).asString :: pyReadlinesAux rest []
  | c :: rest, acc => pyReadlinesAux rest (c :: acc)

/-- Python `readlines` on a whole content string. -/
def pyReadlines (s : String) : List String := pyReadlinesAux s.data []

/-! ### Python `float()` on strings

`pyFloatFull` models Python's `float(string)`: optional surrounding
whitespace, an optional sign, then either a case-insensitive `inf`,
`infinity` or `nan`, or a decimal literal — digits with a single
underscore allowed between two digits, an optional fractional part (at
least one digit overall) and an optional decimal exponent.  Digits and
whitespace are modelled as ASCII; finite values are exact rationals. -/

/-- A Python float value: finite (idealised as an exact rational),
infinite or NaN. -/
inductive PyFloatVal where
  | finite (q : ℚ)
  | pinf
  | ninf
  | nan
deriving DecidableEq, Repr

/-- Python division of a float value by the constant 10 (`score / 10`):
infinities and NaN are preserved. -/
def PyFloatVal.div10 : PyFloatVal → PyFloatVal
  | .finite q => .finite (q / 10)
  | .pinf => .pinf
  | .ninf => .ninf
  | .nan => .nan

/-- Consume leading decimal digits, a single underscore being allowed
between two digits (`"1_0"` reads as `10`, a leading, trailing or
doubled underscore stops the scan), returning their value, the digit
count and the rest. -/
def takeDigits : List Char → Nat → Nat → (Nat × Nat × List Char)
  | [], acc, cnt => (acc, cnt, [])
  | c :: cs, acc, cnt =>
      if c.isDigit then takeDigits cs (acc * 10 + (c.toNat - '0'.toNat)) (cnt + 1)
      else if c == '_' && cnt != 0 then
        match cs with
        | d :: cs2 =>
            if d.isDigit then
              takeDigits cs2 (acc * 10 + (d.toNat - '0'.toNat)) (cnt + 1)
            else (acc, cnt, c :: cs)
        | [] => (acc, cnt, c :: cs)
      else (acc, cnt, c :: cs)

/-- Parse an optional sign, returning `-1` or `1` and the rest. -/
def takeSign : List Char → (Int × List Char)
  | '+' :: cs => (1, cs)
  | '-' :: cs => (-1, cs)
  | cs => (1, cs)

/-- Parse the mantissa `digits[.digits]` (at least one digit overall): the
digits' value with the dot removed, the count of fractional digits, and
the rest; `none` when no digit is present. -/
def takeMantissa (cs : List Char) : Option (Nat × Nat × List Char) :=
  let (ip, ic, rest) := takeDigits cs 0 0
  match rest with
  | '.' :: rest2 =>
      let (fp, fc, rest3) := takeDigits rest2 0 0
      if ic + fc = 0 then none else some (ip * 10 ^ fc + fp, fc, rest3)
  | _ => if ic = 0 then none else some (ip, 0, rest)

/-- Parse an optional exponent part `e[sign]digits`; fails if `e` is present
without digits. -/
def takeExponent (cs : List Char) : Option (Int × List Char) :=
  match cs with
  | 'e' :: rest | 'E' :: rest =>
      let (sg, rest2) := takeSign rest
      let (ev, ec, rest3) := takeDigits rest2 0 0
      if ec = 0 then none else some (sg * Int.ofNat ev, rest3)
  | _ => some (0, cs)

/-- Case-insensitive comparison of `s` with a lowercase pattern. -/
def lowerEq (s pat : List Char) : Bool := s.map Char.toLower == pat

/-- Python `float(s)`; `none` models a raised `ValueError`. -/
def pyFloatFull (s : String) : Option PyFloatVal :=
  let cs := (s.data.dropWhile pyIsSpace).reverse.dropWhile pyIsSpace |>.reverse
  let (sg, cs1) := takeSign cs
  if lowerEq cs1 ("inf").data || lowerEq cs1 ("infinity").data then
    some (if sg = 1 then .pinf else .ninf)
  else if lowerEq cs1 ("nan").data then some .nan
  else
    match takeMantissa cs1 with
    | none => none
    | some (m, fc, cs2) =>
        match takeExponent cs2 with
        | none => none
        | some (e, cs3) =>
            if cs3.isEmpty then
              some (.finite ((sg : ℚ) * (m : ℚ) / (10 : ℚ) ^ fc * (10 : ℚ) ^ e))
            else none

/-- The finite case of `pyFloatFull`, as an exact rational.  (On a token
such as `inf` or `nan`, `float` succeeds with a non-finite value:
`get_lint_score_py` below covers those; this rational-valued restriction
has no value to return there.) -/
def pyFloat (s : String) : Option ℚ :=
  match pyFloatFull s with
  | some (.finite q) => some q
  | _ => none

/-! ### `get_coverage_score`

The script opens `./coverage.tfc.json`, parses it with `json.loads`, and
returns `json_coverage["totals"]["percent_covered"] / 100`.  We embed the
function over the parsed JSON document. -/

/-- A parsed JSON value; numbers are exact rationals. -/
inductive JsonVal where
  | num (q : ℚ)
  | str (s : String)
  | bool (b : Bool)
  | null
  | arr (xs : List JsonVal)
  | obj (fields : List (String × JsonVal))

/-- Python `d[key]` on a parsed JSON value: `KeyError` when the key is
missing, `TypeError` when the value is not an object. -/
def jsonIndex : JsonVal → String → Except String JsonVal
  | .obj fields, key =>
      match fields.find? (fun p => p.1 == key) with
      | some p => .ok p.2
      | none => .error "KeyError"
  | _, _ => .error "TypeError"

/-- The function `get_coverage_score`, over the parsed coverage JSON document:
`json_coverage["totals"]["percent_covered"] / 100`.  Division of a
non-number raises `TypeError` in Python. -/
def get_coverage_score (json_coverage : JsonVal) : Except String ℚ :=
  match jsonIndex json_coverage "totals" with
  | .error e => .error e
  | .ok totals =>
      match jsonIndex totals "percent_covered" with
      | .error e => .error e
      | .ok (.num q) => .ok (q / 100)
      | .ok _ => .error "TypeError"

/-! ### `get_lint_score`

The script reads `./lint_output.txt`, keeps the nonempty lines of the
content split on `"\n"`, takes the last one, deletes every occurrence of
`"Your code has been rated at "`, takes the part before the first space,
then the part before the first `/`, converts with `float` and divides
by 10.  `lint_results_list[-1]` raises `IndexError` on an empty list and
`float` raises `ValueError` on a malformed numeral. -/

/-- The last nonempty line of the lint output
(`[i for i in lint_results.split("\n") if i][-1]`). -/
def lint_last_line (content : String) : Option String :=
  ((pySplitStr content '\n').filter (fun i => !(i == ""))).getLast?

/-- The numeral token `get_lint_score` extracts from the score line:
delete the preamble, split on `" "` and keep the head, split that on
`"/"` and keep the head. -/
def lint_token (score_line : String) : String :=
  (pySplitStr
    ((pySplitStr (pyReplace score_line "Your code has been rated at " "")
        ' ').headD "")
    '/').headD ""

/-- The function `get_lint_score`, over the content of
`lint_output.txt` and Python's full float domain: the returned score is
a Python float value, which may be infinite or NaN (a final line `"inf"`
succeeds with score `inf`). -/
def get_lint_score_py (lint_results : String) : Except String PyFloatVal :=
  match lint_last_line lint_results with
  | none => .error "IndexError"
  | some score_line =>
      match pyFloatFull (lint_token score_line) with
      | none => .error "ValueError"
      | some v => .ok v.div10

/-- The function `get_lint_score` restricted to finite scores, as exact
rationals — the adequate view whenever the numeral token is a decimal
literal; `get_lint_score_py` above is the full behaviour. -/
def get_lint_score (lint_results : String) : Except String ℚ :=
  match lint_last_line lint_results with
  | none => .error "IndexError"
  | some score_line =>
      match pyFloat (lint_token score_line) with
      | none => .error "ValueError"
      | some q => .ok (q / 10)

/-! ### `get_pypi_latest_published_version`

`requests.get(PYPI_XML_URL)` raises on network failure but does NOT raise
on a non-2xx status; `ET.fromstring(req.content)` raises `ParseError` on a
malformed body; otherwise the loop over `tree.iter("title")` takes
`item.text` of the element at index 1 (an element's `.text` may itself be
`None`).  The HTTP exchange is embedded as an explicit outcome value. -/

/-- Outcome of parsing the response body as XML: a raised parse error, or
the `.text` fields of the `title` elements in document order. -/
inductive XmlOutcome where
  | malformed (e : String)
  | titles (texts : List (Option String))
deriving DecidableEq

/-- Outcome of `requests.get`: a raised network exception, or a response
with a status code and a body. -/
inductive HttpOutcome where
  | raises (e : String)
  | response (status : Nat) (body : XmlOutcome)
deriving DecidableEq

/-- The function `get_pypi_latest_published_version`, over the outcome of the HTTP
fetch.  Note the status code is never consulted. -/
def get_pypi_latest_published_version : HttpOutcome → Except String (Option String)
  | .raises e => .error e
  | .response _ (.malformed e) => .error e
  | .response _ (.titles texts) => .ok ((texts.get? 1).bind id)

/-! ### The changelog part of `get_local_versions`

On the first line of `CHANGELOG.md` containing `"##"`, the script takes
`line[line.find("[")+1:line.find("]")].strip()` and stops scanning. -/

/-- The extraction applied to the matched changelog line. -/
def changelog_extract (line : String) : String :=
  pyStrip (pySliceStr line (pyFind line '[' + 1) (pyFind line ']'))

/-- Does a line contain the section marker `"##"`? -/
def lineHasMarker (line : String) : Bool := containsSub ['#', '#'] line.data

/-- The scan over the changelog's lines: first marker line wins. -/
def scanChangelog : List String → Option String
  | [] => none
  | line :: rest =>
      if lineHasMarker line then some (changelog_extract line)
      else scanChangelog rest

/-- The function `read_changelog_version`: the changelog clause of `get_local_versions`,
over the content of `CHANGELOG.md`. -/
def read_changelog_version (content : String) : Option String :=
  scanChangelog (pyReadlines content)

/-- Formalisation of the spec's sentence for `read_changelog_version`, for
comparison: on the first line containing `"##"`, the whitespace-trimmed
substring strictly between the first `[` on that line and the first `]`
after it (`none` when the spec's description picks out no substring). -/
def read_changelog_version_specced (content : String) : Option String :=
  match (pyReadlines content).find? lineHasMarker with
  | none => none
  | some line =>
      match pyFind line '[' with
      | .ofNat i =>
          match pyFindAux ']' (line.data.drop (i + 1)) 0 with
          | .ofNat j => some (pyStrip ((line.data.drop (i + 1)).take j).asString)
          | _ => none
      | _ => none

/-! ### `main`

`main` retrieves the coverage score, the lint score and the three local
versions, then accumulates violation messages in `err_msg_list`;
with `--release-check` it additionally fetches the latest PyPI version,
compares it with each local version and checks the working tree.  We
embed `main` over the values those retrievals produce.  A printed
message carries interpolated data; each `f"-string"` appended to
`err_msg_list` is one `ErrMsg` constructor and each `print` of the
success path is one `OutEvent` constructor. -/

def MIN_COVERAGE_SCORE : ℚ := 8 / 10

def MIN_LINT_SCORE : ℚ := 9 / 10

/-- The violation messages `main` can append to `err_msg_list`, in source
order, each carrying the data its f-string interpolates. -/
inductive ErrMsg where
  | coverageLow (score : ℚ)
  | lintLow (score : ℚ)
  | versionMismatch
  | changelogAlreadyReleased
  | pypiCfgAlreadyReleased
  | docsAlreadyReleased
  | stagedOrModified
deriving DecidableEq, Repr

/-- What `main` prints: the violation block
(`print("\n".join(err_msg_list), "\nExiting.")`) or one of the four
success-path lines. -/
inductive OutEvent where
  | errorsAndExiting (msgs : List ErrMsg)
  | coverageOkLine (score : ℚ)
  | lintOkLine (score : ℚ)
  | versionsMatchLine
  | goodToReleaseLine
deriving DecidableEq, Repr

/-- The values `main` obtains from its environment: the two scores, the
three local versions, the `--release-check` flag, the outcome of
`get_pypi_latest_published_version` (only consulted under the flag) and
the answer of `has_staged_or_modified_files`. -/
structure CheckInput where
  coverage_score : ℚ
  lint_score : ℚ
  changelog_version : Option String
  pypi_config_version : Option String
  docs_version : Option String
  release_check : Bool
  fetch : Except String (Option String)
  staged_or_modified : Bool

/-- The observable result of a completed run: the accumulated
`err_msg_list`, the printed output, and the process exit status. -/
structure RunResult where
  err_msg_list : List ErrMsg
  output : List OutEvent
  exit_code : Nat
deriving DecidableEq, Repr

/-- Python `a >= b` where both operands may be `None`
(`TypeError` unless both are strings). -/
def pyGeOpt : Option String → Option String → Except String Bool
  | some a, some b => .ok (pyStrGe a b)
  | _, _ => .error "TypeError"

/-- Python `a < b` where both operands may be `None`. -/
def pyLtOpt : Option String → Option String → Except String Bool
  | some a, some b => .ok (pyStrLt a b)
  | _, _ => .error "TypeError"

/-- The release-check block (lines 148-174): fetch the latest PyPI
version, append the version-mismatch and the three `>=` comparison
messages and the dirty-tree message.  Returns the fetched
`latest_published_version` together with the messages appended.  The
`if latest_published_version is None: pass` statement of the source has
no effect, so a `none` fetch result reaches the `>=` comparisons. -/
def release_block (inp : CheckInput) (version_match : Bool) :
    Except String (Option String × List ErrMsg) :=
  match inp.fetch with
  | .error e => .error e
  | .ok latest_published_version =>
      let l1 : List ErrMsg := if !version_match then [.versionMismatch] else []
      match pyGeOpt latest_published_version inp.changelog_version with
      | .error e => .error e
      | .ok b1 =>
          let l2 : List ErrMsg := if b1 then [.changelogAlreadyReleased] else []
          match pyGeOpt latest_published_version inp.pypi_config_version with
          | .error e => .error e
          | .ok b2 =>
              let l3 : List ErrMsg := if b2 then [.pypiCfgAlreadyReleased] else []
              match pyGeOpt latest_published_version inp.docs_version with
              | .error e => .error e
              | .ok b3 =>
                  let l4 : List ErrMsg := if b3 then [.docsAlreadyReleased] else []
                  let l5 : List ErrMsg :=
                    if inp.staged_or_modified then [.stagedOrModified] else []
                  .ok (latest_published_version, l1 ++ l2 ++ l3 ++ l4 ++ l5)

/-- The success-path condition of the final `print` (lines 183-186):
`latest is not None and latest < changelog and latest < pypi and
latest < docs`, with Python's short-circuiting `and`. -/
def good_to_release_cond (latest : Option String) (inp : CheckInput) :
    Except String Bool :=
  match latest with
  | none => .ok false
  | some lv =>
      match pyLtOpt (some lv) inp.changelog_version with
      | .error e => .error e
      | .ok false => .ok false
      | .ok true =>
          match pyLtOpt (some lv) inp.pypi_config_version with
          | .error e => .error e
          | .ok false => .ok false
          | .ok true => pyLtOpt (some lv) inp.docs_version

/-- The tail of `main` (lines 176-187): exit 1 printing the joined
messages and `"Exiting."` when `err_msg_list` is nonempty, otherwise
print the three confirmation lines (and conditionally the
good-to-release line) and exit 0. -/
def finish_run (inp : CheckInput) (latest : Option String)
    (err_msg_list : List ErrMsg) : Except String RunResult :=
  if err_msg_list.isEmpty then
    match good_to_release_cond latest inp with
    | .error e => .error e
    | .ok good =>
        .ok { err_msg_list := []
              output := [.coverageOkLine inp.coverage_score,
                         .lintOkLine inp.lint_score,
                         .versionsMatchLine] ++
                        (if good then [.goodToReleaseLine] else [])
              exit_code := 0 }
  else
    .ok { err_msg_list := err_msg_list
          output := [.errorsAndExiting err_msg_list]
          exit_code := 1 }

/-- The body of `main` after the two threshold comparisons (lines
133-187), parameterised by the values of `meets_coverage` and
`meets_lint`. -/
def main_body (inp : CheckInput) (meets_coverage meets_lint : Bool) :
    Except String RunResult :=
  let version_match : Bool :=
    inp.changelog_version == inp.pypi_config_version &&
    inp.pypi_config_version == inp.docs_version
  let base : List ErrMsg :=
    (if !meets_coverage then [.coverageLow inp.coverage_score] else []) ++
    (if !meets_lint then [.lintLow inp.lint_score] else [])
  match (if inp.release_check then release_block inp version_match
         else .ok (none, [])) with
  | .error e => .error e
  | .ok (latest_published_version, rel_msgs) =>
      finish_run inp latest_published_version (base ++ rel_msgs)

/-- The function `main` (lines 127-187), over the retrieved values.  An uncaught
Python exception is an `Except.error`: the run aborts with nothing
printed by `main`. -/
def main_check (inp : CheckInput) : Except String RunResult :=
  main_body inp (decide (MIN_COVERAGE_SCORE ≤ inp.coverage_score))
    (decide (MIN_LINT_SCORE ≤ inp.lint_score))

/-! ### Concrete inputs and message classifiers used in the analysis -/

/-- Recognises the three "greater or equal to the latest in PyPi, do not
release" messages, one per local version source. -/
def isAlreadyReleasedMsg : ErrMsg → Bool
  | .changelogAlreadyReleased => true
  | .pypiCfgAlreadyReleased => true
  | .docsAlreadyReleased => true
  | _ => false

/-- Recognises the coverage-threshold violation message. -/
def isCoverageMsg : ErrMsg → Bool
  | .coverageLow _ => true
  | _ => false

/-- The score line of the lint report considered in the spec's example. -/
def ratedLine915 : String :=
  "Your code has been rated at 9.15/10 (previous run: 9.00/10, +0.15)"

/-- A release-check run on which the PyPI fetch succeeds but yields no
version (fewer than two `title` elements): every other retrieval is
healthy. -/
def c1FailingInput : CheckInput :=
  { coverage_score := 9 / 10
    lint_score := 19 / 20
    changelog_version := some "1.3.0"
    pypi_config_version := some "1.3.0"
    docs_version := some "1.3.0"
    release_check := true
    fetch := Except.ok none
    staged_or_modified := false }

/-- The release-check scenario of the claim: all three local versions
`"1.3.0"`, remote version `"1.3.0"`, arbitrary scores and tree state. -/
def c4Input (c l : ℚ) (staged : Bool) : CheckInput :=
  { coverage_score := c
    lint_score := l
    changelog_version := some "1.3.0"
    pypi_config_version := some "1.3.0"
    docs_version := some "1.3.0"
    release_check := true
    fetch := Except.ok (some "1.3.0")
    staged_or_modified := staged }

/-- A coverage document whose `totals.percent_covered` is `87.4`. -/
def c6WitnessDoc : JsonVal :=
  .obj [("meta", .str "coverage.py"),
        ("totals", .obj [("covered_lines", .num 1234),
                         ("percent_covered", .num (437 / 5)),
                         ("missing_lines", .num 178)])]

/-- A completed run with both scores below threshold and no release
check. -/
def c3WitnessInput : CheckInput :=
  { coverage_score := 1 / 2
    lint_score := 1 / 2
    changelog_version := some "1.3.0"
    pypi_config_version := some "1.3.0"
    docs_version := some "1.3.0"
    release_check := false
    fetch := Except.ok none
    staged_or_modified := false }

/-- The result of the run on `c3WitnessInput`. -/
def c3WitnessRun : RunResult :=
  { err_msg_list := [.coverageLow (1 / 2), .lintLow (1 / 2)]
    output := [.errorsAndExiting [.coverageLow (1 / 2), .lintLow (1 / 2)]]
    exit_code := 1 }

/-- A release-check run with coverage `0.5` on which the PyPI fetch
succeeds but yields no version. -/
def c9CrashInput : CheckInput :=
  { coverage_score := 1 / 2
    lint_score := 19 / 20
    changelog_version := some "1.3.0"
    pypi_config_version := some "1.3.0"
    docs_version := some "1.3.0"
    release_check := true
    fetch := Except.ok none
    staged_or_modified := false }

/-- A completed run with coverage `0.5`: no release check, healthy lint. -/
def c9WitnessInput : CheckInput :=
  { coverage_score := 1 / 2
    lint_score := 1
    changelog_version := some "1.0"
    pypi_config_version := some "1.0"
    docs_version := some "1.0"
    release_check := false
    fetch := Except.error "ConnectionError"
    staged_or_modified := false }

/-- The result of the run on `c9WitnessInput`. -/
def c9WitnessRun : RunResult :=
  { err_msg_list := [.coverageLow (1 / 2)]
    output := [.errorsAndExiting [.coverageLow (1 / 2)]]
    exit_code := 1 }

/-- A run without `--release-check` whose three local versions all
differ while both scores meet their thresholds. -/
def c10WitnessInput : CheckInput :=
  { coverage_score := 9 / 10
    lint_score := 19 / 20
    changelog_version := some "1.3.0"
    pypi_config_version := some "1.2.0"
    docs_version := some "9.9.9"
    release_check := false
    fetch := Except.ok none
    staged_or_modified := true }

/-- The result of the run on `c10WitnessInput`. -/
def c10WitnessRun : RunResult :=
  { err_msg_list := []
    output := [.coverageOkLine (9 / 10), .lintOkLine (19 / 20),
               .versionsMatchLine]
    exit_code := 0 }

/-! ### Claims -/

/-- C1: the script intends to skip the remote-version comparisons when the
fetch yields no version (`if latest_published_version is None: pass`), and
the spec states the run still completes; but the `pass` guard has no
effect, so `None >= "1.3.0"` is evaluated and raises `TypeError`, aborting
the run before any check is reported. -/
theorem C1_none_fetch_aborts_run :
    main_check c1FailingInput = Except.error "TypeError" := rfl

/-- C2: counterexample — when the HTTP request fails,
`get_pypi_latest_published_version` propagates the exception instead of
returning `none`. -/
theorem C2_counterexample :
    get_pypi_latest_published_version (HttpOutcome.raises "ConnectionError") =
      Except.error "ConnectionError" ∧
    get_pypi_latest_published_version (HttpOutcome.raises "ConnectionError") ≠
      Except.ok none :=
  ⟨rfl, fun h => Except.noConfusion h⟩

/-- C2 (amended): `get_pypi_latest_published_version` raises past its
caller on a failed HTTP request and on a malformed XML body; the HTTP
status is never consulted; when the body parses with fewer than two
`title` elements it returns `none`, and with at least two it returns the
text of the second one (index 1), which may itself be `none` for an empty
element. -/
theorem C2_fetch_behavior (st : Nat) (e : String) (texts : List (Option String)) :
    get_pypi_latest_published_version (HttpOutcome.raises e) = Except.error e ∧
    get_pypi_latest_published_version
        (HttpOutcome.response st (XmlOutcome.malformed e)) = Except.error e ∧
    (texts.length < 2 →
      get_pypi_latest_published_version
        (HttpOutcome.response st (XmlOutcome.titles texts)) = Except.ok none) ∧
    (∀ t0 t1 rest, texts = t0 :: t1 :: rest →
      get_pypi_latest_published_version
        (HttpOutcome.response st (XmlOutcome.titles texts)) = Except.ok t1) := by
  refine ⟨rfl, rfl, ?_, ?_⟩
  · intro hlen
    match texts, hlen with
    | [], _ => rfl
    | [_], _ => rfl
  · intro t0 t1 rest ht
    subst ht
    rfl

/-- C2 (amended) witness: concrete fetch outcomes, including a non-2xx
status processed like any other. -/
theorem C2_fetch_behavior_witness :
    get_pypi_latest_published_version
        (HttpOutcome.response 404 (XmlOutcome.titles [some "terrasnek releases"])) =
      Except.ok none ∧
    get_pypi_latest_published_version
        (HttpOutcome.response 200
          (XmlOutcome.titles [some "terrasnek releases", some "0.1.13", some "0.1.12"])) =
      Except.ok (some "0.1.13") :=
  ⟨(C2_fetch_behavior 404 "e" [some "terrasnek releases"]).2.2.1 (by decide),
   (C2_fetch_behavior 200 "e"
      [some "terrasnek releases", some "0.1.13", some "0.1.12"]).2.2.2
      (some "terrasnek releases") (some "0.1.13") [some "0.1.12"] rfl⟩

/-- C5: for every lint report whose last nonempty line is the example
score line, `get_lint_score` returns exactly `0.915`. -/
theorem C5_rated_line_gives_0915 (content : String)
    (h : lint_last_line content = some ratedLine915) :
    get_lint_score content = Except.ok (183 / 200) := by
  simp only [get_lint_score, h]
  rw [show pyFloat (lint_token ratedLine915) =
      some (((1 : ℤ) : ℚ) * ((915 : ℕ) : ℚ) / (10 : ℚ) ^ (2 : ℕ) *
        (10 : ℚ) ^ ((0 : ℤ))) from rfl]
  norm_num

/-- C5 witness: a concrete pylint report ending in the example line. -/
theorem C5_rated_line_gives_0915_witness :
    get_lint_score
      "************* Module terrasnek.api\n\nYour code has been rated at 9.15/10 (previous run: 9.00/10, +0.15)\n" =
      Except.ok (183 / 200) :=
  C5_rated_line_gives_0915
    "************* Module terrasnek.api\n\nYour code has been rated at 9.15/10 (previous run: 9.00/10, +0.15)\n"
    rfl

/-- C6: whenever `totals.percent_covered` holds the numeric value `P`,
`get_coverage_score` returns exactly `P / 100`. -/
theorem C6_coverage_is_percent_div_100 (doc totals : JsonVal) (P : ℚ)
    (h1 : jsonIndex doc "totals" = Except.ok totals)
    (h2 : jsonIndex totals "percent_covered" = Except.ok (JsonVal.num P)) :
    get_coverage_score doc = Except.ok (P / 100) := by
  simp only [get_coverage_score, h1, h2]

/-- C6 witness: a concrete coverage document with `percent_covered =
87.4`. -/
theorem C6_coverage_is_percent_div_100_witness :
    get_coverage_score c6WitnessDoc = Except.ok ((437 / 5) / 100) :=
  C6_coverage_is_percent_div_100 c6WitnessDoc
    (.obj [("covered_lines", .num 1234), ("percent_covered", .num (437 / 5)),
           ("missing_lines", .num 178)])
    (437 / 5) rfl rfl

/-- C7: counterexample — the final line `"7/10"` does not match the
pattern `"Your code has been rated at X/10..."` (it does not even start
with the preamble), yet `get_lint_score` succeeds and returns `0.7`
instead of failing with a parse error. -/
theorem C7_counterexample :
    get_lint_score "7/10" = Except.ok (7 / 10) ∧
    leadsWith ("Your code has been rated at ").data ("7/10").data = false := by
  refine ⟨?_, rfl⟩
  rw [show get_lint_score "7/10" =
      Except.ok (((1 : ℤ) : ℚ) * ((7 : ℕ) : ℚ) / (10 : ℚ) ^ (0 : ℕ) *
        (10 : ℚ) ^ ((0 : ℤ)) / 10) from rfl]
  norm_num

/-- C7 (amended): `get_lint_score` fails with an error exactly when the
report has no nonempty line, or when the leading token of the final
nonempty line — after deleting the preamble and splitting on space and on
slash — is not accepted by Python's `float` (a decimal literal with
optional underscore digit grouping and exponent, or an optionally signed,
case-insensitive `inf`/`infinity`/`nan`); an accepted token yields its
value divided by 10 even when the line does not match the full rated-line
pattern. -/
theorem C7_parse_error_iff (content : String) :
    (∃ e, get_lint_score_py content = Except.error e) ↔
      lint_last_line content = none ∨
      (∃ line, lint_last_line content = some line ∧
        pyFloatFull (lint_token line) = none) := by
  cases h : lint_last_line content with
  | none => simp [get_lint_score_py, h]
  | some line =>
      cases hf : pyFloatFull (lint_token line) with
      | none => simp [get_lint_score_py, h, hf]
      | some v =>
          simp only [get_lint_score_py, h, hf]
          constructor
          · rintro ⟨e, he⟩
            exact Except.noConfusion he
          · rintro (hn | ⟨line', hl', hf'⟩)
            · exact Option.noConfusion hn
            · rw [show line' = line from (Option.some.injEq _ _ ▸ hl').symm] at hf'
              rw [hf] at hf'
              exact Option.noConfusion hf'

/-- The changelog scan takes the first line satisfying the marker test. -/
theorem scanChangelog_eq_find (l : List String) :
    scanChangelog l = (l.find? lineHasMarker).map changelog_extract := by
  induction l with
  | nil => rfl
  | cons line rest ih =>
      cases hp : lineHasMarker line with
      | true => simp [scanChangelog, List.find?, hp]
      | false => simp [scanChangelog, List.find?, hp, ih]

/-- A successful `find` returns an index within the string. -/
theorem pyFindAux_ofNat_lt (c : Char) (l : List Char) (k j : Nat)
    (h : pyFindAux c l k = Int.ofNat j) : j < k + l.length := by
  induction l generalizing k with
  | nil =>
      rw [show pyFindAux c [] k = -1 from rfl] at h
      simp only [Int.ofNat_eq_natCast] at h
      omega
  | cons x xs ih =>
      rw [show pyFindAux c (x :: xs) k =
          (if (x == c) = true then Int.ofNat k else pyFindAux c xs (k + 1))
          from rfl] at h
      by_cases hx : (x == c) = true
      · rw [if_pos hx] at h
        simp only [Int.ofNat_eq_natCast] at h
        simp only [List.length_cons]
        omega
      · rw [if_neg hx] at h
        have := ih (k + 1) h
        simp only [List.length_cons]
        omega

/-- A Python slice with in-range nonnegative endpoints is drop-then-take. -/
theorem pySliceChars_cast (l : List Char) (a b : Nat)
    (ha : a ≤ l.length) (hb : b ≤ l.length) :
    pySliceChars l ((a : ℕ) : ℤ) ((b : ℕ) : ℤ) = (l.drop a).take (b - a) := by
  have hnn : ∀ n : Nat, ¬(((n : ℕ) : ℤ) < 0) := fun n => by omega
  simp only [pySliceChars, Int.ofNat_eq_natCast, Int.toNat_natCast, hnn, if_false]
  rw [min_eq_left ha, min_eq_left hb]

/-- When the first `[` of the line precedes its first `]`, the extraction
is the substring strictly between them, trimmed. -/
theorem changelog_extract_between (line : String) (i j : Nat)
    (hi : pyFind line '[' = Int.ofNat i) (hj : pyFind line ']' = Int.ofNat j)
    (hij : i < j) :
    changelog_extract line =
      pyStrip ((line.data.drop (i + 1)).take (j - (i + 1))).asString := by
  have hjlen : j < line.data.length := by
    have := pyFindAux_ofNat_lt ']' line.data 0 j hj
    omega
  unfold changelog_extract pySliceStr
  rw [hi, hj]
  simp only [Int.ofNat_eq_natCast]
  rw [show ((i : ℤ) + 1) = (((i + 1 : ℕ) : ℕ) : ℤ) by push_cast; ring,
    pySliceChars_cast line.data (i + 1) j (by omega) (by omega)]

/-- C8 (amended): `read_changelog_version` scans the lines in order and
stops at the first line containing `"##"`, returning there the trimmed
Python slice `line[line.find("[")+1:line.find("]")]`, where each `find`
locates the first occurrence anywhere on the line (`-1` when absent); in
particular, when the line's first `[` precedes its first `]`, this is the
whitespace-trimmed substring strictly between them.  (When the first `]`
precedes the first `[` the slice is empty — the spec's "first `]` after
it" reading fails there — and when a bracket is absent the `-1` endpoint
wraps.)  If no line contains `"##"` it returns `none`. -/
theorem C8_first_marker_line_extraction (content : String) :
    ((pyReadlines content).find? lineHasMarker = none →
      read_changelog_version content = none) ∧
    (∀ line, (pyReadlines content).find? lineHasMarker = some line →
      read_changelog_version content = some (changelog_extract line)) ∧
    (∀ line i j, (pyReadlines content).find? lineHasMarker = some line →
      pyFind line '[' = Int.ofNat i → pyFind line ']' = Int.ofNat j → i < j →
      read_changelog_version content =
        some (pyStrip ((line.data.drop (i + 1)).take (j - (i + 1))).asString)) := by
  refine ⟨?_, ?_, ?_⟩
  · intro h
    unfold read_changelog_version
    rw [scanChangelog_eq_find, h]
    rfl
  · intro line h
    unfold read_changelog_version
    rw [scanChangelog_eq_find, h]
    rfl
  · intro line i j h hi hj hij
    unfold read_changelog_version
    rw [scanChangelog_eq_find, h, Option.map_some',
      changelog_extract_between line i j hi hj hij]

/-- C8 (amended) witness: a changelog whose first `##` line is
well-formed; the version between the brackets is returned and the later
`##` line is ignored. -/
theorem C8_first_marker_line_extraction_witness :
    read_changelog_version "# Changelog\n\n## [1.3.0] 2021-03\n## [1.2.9]\n" =
      some "1.3.0" := by
  have h := (C8_first_marker_line_extraction
      "# Changelog\n\n## [1.3.0] 2021-03\n## [1.2.9]\n").2.2
    "## [1.3.0] 2021-03\n" 3 9 rfl rfl rfl (by omega)
  exact h.trans rfl

/-- C8: counterexample — on the line `"## ]a[1.0]\n"` the first `]`
precedes the first `[`: the code slices from after the `[` up to that
earlier `]`, yielding the empty string, while the spec's "substring
between the first `[` and the first `]` after it" reading yields
`"1.0"`. -/
theorem C8_counterexample :
    read_changelog_version "## ]a[1.0]\n" = some "" ∧
    read_changelog_version_specced "## ]a[1.0]\n" = some "1.0" ∧
    ("" : String) ≠ "1.0" :=
  ⟨rfl, rfl, by decide⟩

/-- Case analysis of the tail of `main`: a completed run either reports
the nonempty message list in one block with exit 1, or prints the three
confirmation lines (possibly followed by the release line) with
exit 0. -/
theorem finish_run_cases (inp : CheckInput) (latest : Option String)
    (l : List ErrMsg) (r : RunResult)
    (h : finish_run inp latest l = Except.ok r) :
    (r.err_msg_list ≠ [] →
      r.exit_code = 1 ∧ r.output = [OutEvent.errorsAndExiting r.err_msg_list]) ∧
    (r.err_msg_list = [] → r.exit_code = 0 ∧
      ∃ rest, r.output =
        OutEvent.coverageOkLine inp.coverage_score ::
          OutEvent.lintOkLine inp.lint_score ::
            OutEvent.versionsMatchLine :: rest) := by
  unfold finish_run at h
  split at h
  · split at h
    · exact Except.noConfusion h
    · injection h with h2
      subst h2
      exact ⟨fun hne => absurd rfl hne, fun _ => ⟨rfl, ⟨_, rfl⟩⟩⟩
  · next hne =>
      injection h with h2
      subst h2
      refine ⟨fun _ => ⟨rfl, rfl⟩, fun h0 => ?_⟩
      have h0' : l = [] := h0
      exact absurd (show l.isEmpty = true by rw [h0']; rfl) hne

/-- The messages appended by the release-check block never include a
coverage violation. -/
theorem release_block_no_coverage (inp : CheckInput) (vm : Bool)
    (lv : Option String) (msgs : List ErrMsg)
    (h : release_block inp vm = Except.ok (lv, msgs)) :
    msgs.filter isCoverageMsg = [] := by
  simp only [release_block] at h
  cases hf : inp.fetch with
  | error e =>
      simp only [hf] at h
      exact Except.noConfusion h
  | ok latest =>
      simp only [hf] at h
      cases hg1 : pyGeOpt latest inp.changelog_version with
      | error e =>
          simp only [hg1] at h
          exact Except.noConfusion h
      | ok b1 =>
          simp only [hg1] at h
          cases hg2 : pyGeOpt latest inp.pypi_config_version with
          | error e =>
              simp only [hg2] at h
              exact Except.noConfusion h
          | ok b2 =>
              simp only [hg2] at h
              cases hg3 : pyGeOpt latest inp.docs_version with
              | error e =>
                  simp only [hg3] at h
                  exact Except.noConfusion h
              | ok b3 =>
                  simp only [hg3] at h
                  injection h with h2
                  injection h2 with h3 h4
                  rw [← h4]
                  split_ifs <;> rfl

/-- C3: in every completed run, a nonempty violation list is printed as a
single block (the messages, then the "Exiting." notice) and the process
exits with status 1, while an empty list leads to the three confirmation
lines and exit status 0. -/
theorem C3_report_and_exit (inp : CheckInput) (r : RunResult)
    (h : main_check inp = Except.ok r) :
    (r.err_msg_list ≠ [] →
      r.exit_code = 1 ∧ r.output = [OutEvent.errorsAndExiting r.err_msg_list]) ∧
    (r.err_msg_list = [] → r.exit_code = 0 ∧
      ∃ rest, r.output =
        OutEvent.coverageOkLine inp.coverage_score ::
          OutEvent.lintOkLine inp.lint_score ::
            OutEvent.versionsMatchLine :: rest) := by
  simp only [main_check, main_body] at h
  split at h
  · exact Except.noConfusion h
  · exact finish_run_cases _ _ _ _ h

/-- Helper for the C3 witness: evaluating the run on the concrete
input. -/
theorem c3_witness_run : main_check c3WitnessInput = Except.ok c3WitnessRun := by
  unfold main_check
  rw [decide_eq_false (show ¬(MIN_COVERAGE_SCORE ≤ c3WitnessInput.coverage_score) by
        norm_num [c3WitnessInput, MIN_COVERAGE_SCORE]),
      decide_eq_false (show ¬(MIN_LINT_SCORE ≤ c3WitnessInput.lint_score) by
        norm_num [c3WitnessInput, MIN_LINT_SCORE])]
  rfl

/-- C3 witness: a run with two violations prints the block and exits 1. -/
theorem C3_report_and_exit_witness :
    c3WitnessRun.exit_code = 1 ∧
    c3WitnessRun.output = [OutEvent.errorsAndExiting c3WitnessRun.err_msg_list] :=
  (C3_report_and_exit c3WitnessInput c3WitnessRun c3_witness_run).1
    (List.cons_ne_nil _ _)

/-- C4: with release-checking enabled, all three local versions
`"1.3.0"` and remote version `"1.3.0"`, the run completes and its
message list holds exactly the three "already released" violations, one
per local version source (local `>=` remote under lexicographic string
comparison), whatever the scores and tree state; the run exits 1. -/
theorem C4_three_already_released (c l : ℚ) (staged : Bool) :
    ∃ r, main_check (c4Input c l staged) = Except.ok r ∧
      r.err_msg_list.filter isAlreadyReleasedMsg =
        [ErrMsg.changelogAlreadyReleased, ErrMsg.pypiCfgAlreadyReleased,
          ErrMsg.docsAlreadyReleased] ∧
      r.exit_code = 1 := by
  cases staged <;>
    · unfold main_check
      simp only [c4Input]
      cases hmc : decide (MIN_COVERAGE_SCORE ≤ c) <;>
        cases hml : decide (MIN_LINT_SCORE ≤ l) <;>
          exact ⟨_, rfl, rfl, rfl⟩

/-- C9: counterexample — an input with coverage score `0.5` on which the
evaluator neither reports the coverage violation nor exits normally: the
release-check fetch yields no version and the run aborts with an uncaught
`TypeError` before anything is printed. -/
theorem C9_counterexample :
    c9CrashInput.coverage_score = 1 / 2 ∧
    main_check c9CrashInput = Except.error "TypeError" :=
  ⟨rfl, rfl⟩

/-- C9 (amended): for every input with coverage score `0.5`: when
release-checking is disabled the run always completes, and every
completed run — whatever the flag and the lint score — has exactly one
coverage violation in its message list and, the list being nonempty,
exits with status 1; violations accumulate in a list and are reported
together.  (With release-checking enabled the run may instead abort with
an uncaught `TypeError` before reporting anything, as in the C1 bug.) -/
theorem C9_coverage_half_reports_once (inp : CheckInput)
    (hcov : inp.coverage_score = 1 / 2) :
    (inp.release_check = false → ∃ r, main_check inp = Except.ok r) ∧
    (∀ r, main_check inp = Except.ok r →
      r.err_msg_list.filter isCoverageMsg = [ErrMsg.coverageLow (1 / 2)] ∧
      r.exit_code = 1) := by
  constructor
  · intro hflag
    unfold main_check
    cases hmc : decide (MIN_COVERAGE_SCORE ≤ inp.coverage_score) <;>
      cases hml : decide (MIN_LINT_SCORE ≤ inp.lint_score) <;>
        · simp only [main_body, hflag, Bool.not_true, Bool.not_false,
            Bool.false_eq_true, eq_self_iff_true, if_true, if_false,
            List.nil_append, List.append_nil, List.cons_append, finish_run,
            List.isEmpty_cons, List.isEmpty_nil, good_to_release_cond]
          exact ⟨_, rfl⟩
  · intro r h
    have hmc : decide (MIN_COVERAGE_SCORE ≤ (1 / 2 : ℚ)) = false :=
      decide_eq_false (by norm_num [MIN_COVERAGE_SCORE])
    simp only [main_check, main_body, hcov, hmc, Bool.not_false,
      eq_self_iff_true, if_true, List.cons_append, List.nil_append] at h
    split at h
    · exact Except.noConfusion h
    · next lv msgs heq =>
        have hmsgs : msgs.filter isCoverageMsg = [] := by
          by_cases hrc : inp.release_check = true
          · rw [if_pos hrc] at heq
            exact release_block_no_coverage _ _ _ _ heq
          · rw [if_neg hrc] at heq
            injection heq with h2
            injection h2 with h3 h4
            rw [← h4]
            rfl
        simp only [finish_run, List.isEmpty_cons, Bool.false_eq_true, if_false] at h
        injection h with h2
        subst h2
        refine ⟨?_, rfl⟩
        simp only [List.filter_cons, List.filter_append, hmsgs]
        rw [show isCoverageMsg (ErrMsg.coverageLow (1 / 2)) = true from rfl]
        simp only [if_true, List.append_nil, List.cons.injEq]
        refine ⟨trivial, ?_⟩
        split_ifs <;> rfl

/-- Helper for the C9 witness: evaluating the run on the concrete
input. -/
theorem c9_witness_run : main_check c9WitnessInput = Except.ok c9WitnessRun := by
  unfold main_check
  rw [decide_eq_false (show ¬(MIN_COVERAGE_SCORE ≤ c9WitnessInput.coverage_score) by
        norm_num [c9WitnessInput, MIN_COVERAGE_SCORE]),
      decide_eq_true (show MIN_LINT_SCORE ≤ c9WitnessInput.lint_score by
        norm_num [c9WitnessInput, MIN_LINT_SCORE])]
  rfl

/-- C9 (amended) witness: a no-release-check run with coverage `0.5`
completes, and the completed run has one coverage violation and
exit 1. -/
theorem C9_coverage_half_reports_once_witness :
    (∃ r, main_check c9WitnessInput = Except.ok r) ∧
    c9WitnessRun.err_msg_list.filter isCoverageMsg = [ErrMsg.coverageLow (1 / 2)] ∧
    c9WitnessRun.exit_code = 1 :=
  ⟨(C9_coverage_half_reports_once c9WitnessInput rfl).1 rfl,
   (C9_coverage_half_reports_once c9WitnessInput rfl).2 c9WitnessRun c9_witness_run⟩

/-- C10: without `--release-check`, differing local versions never
produce a violation, and on the no-violation path the run still prints
the "All of the versions match..." confirmation line and exits 0: the
pairwise version comparison influences the output only under the
release-check flag. -/
theorem C10_mismatch_without_release_check (inp : CheckInput) (r : RunResult)
    (hflag : inp.release_check = false)
    (h : main_check inp = Except.ok r) :
    ErrMsg.versionMismatch ∉ r.err_msg_list ∧
    (r.err_msg_list = [] →
      r.exit_code = 0 ∧ OutEvent.versionsMatchLine ∈ r.output) := by
  unfold main_check at h
  cases hmc : decide (MIN_COVERAGE_SCORE ≤ inp.coverage_score) <;>
    cases hml : decide (MIN_LINT_SCORE ≤ inp.lint_score) <;>
      rw [hmc, hml] at h <;>
      · simp only [main_body, hflag, Bool.not_true, Bool.not_false,
          Bool.false_eq_true, eq_self_iff_true, if_true, if_false,
          List.nil_append, List.append_nil, List.cons_append, finish_run,
          List.isEmpty_cons, List.isEmpty_nil, good_to_release_cond] at h
        injection h with h2
        subst h2
        constructor
        · simp
        · intro h0
          first
            | exact ⟨rfl, by simp⟩
            | simp at h0

/-- Helper for the C10 witness: evaluating the run on the concrete
input. -/
theorem c10_witness_run :
    main_check c10WitnessInput = Except.ok c10WitnessRun := by
  unfold main_check
  rw [decide_eq_true (show MIN_COVERAGE_SCORE ≤ c10WitnessInput.coverage_score by
        norm_num [c10WitnessInput, MIN_COVERAGE_SCORE]),
      decide_eq_true (show MIN_LINT_SCORE ≤ c10WitnessInput.lint_score by
        norm_num [c10WitnessInput, MIN_LINT_SCORE])]
  rfl

/-- C10 witness: a no-release-check run whose three versions all differ
still reports no violation, prints the match line and exits 0. -/
theorem C10_mismatch_without_release_check_witness :
    ErrMsg.versionMismatch ∉ c10WitnessRun.err_msg_list ∧
    (c10WitnessRun.err_msg_list = [] →
      c10WitnessRun.exit_code = 0 ∧
      OutEvent.versionsMatchLine ∈ c10WitnessRun.output) :=
  C10_mismatch_without_release_check c10WitnessInput c10WitnessRun rfl
    c10_witness_run

end ContributorCheck
